import Mathlib

/-!
# OpenHD wifi cards: identity key, settings persistence, manifest

A shallow embedding of `ohd_interface/inc/openhd-wifi.hpp`.

Conventions of the embedding

* `std::string` is a Lean `String` (Unicode text).
* A `nlohmann::json` value is a `Json` tree.  Object members are kept in the order in
  which they were assigned; every access is by key, so the order is never observed.
* The text layer of the JSON library (`dump(4)` and `operator>>`) is not part of the
  sources.  A file is therefore represented by what the stream reader makes of its bytes:
  either malformed text, on which `operator>>` throws `parse_error`, or a document
  denoting a JSON value, which is what `dump` writes.
* The settings directory is `none` when it does not exist and `some files` when it does,
  `files` mapping a file name to the content of the file of that name.  A path reaches
  the file system as a C string, cut at the first NUL, and addresses a file of the
  directory when it is the path of the directory followed by a file name: not empty, not
  `.` or `..`, without `/`, at most 255 bytes.  A stream opened on any other path fails
  to open, and the code never tests its streams.  Other causes of failure (permissions,
  a full disk) are outside the model.
* A C++ exception is an `Except.error`; a function that changes the file system returns
  the file system it leaves behind, also when it throws.
* Output to `std::cout` is not modelled.
-/

namespace OpenHD

/-! ## JSON values -/

/-- JSON values of `nlohmann::json` (numbers are represented by the integers). -/
inductive Json where
  | null
  | bool (b : Bool)
  | num (n : Int)
  | str (s : String)
  | arr (xs : List Json)
  | obj (kvs : List (String × Json))

/-- Exceptions of the JSON library that the modelled code can raise. -/
inductive JsonError where
  | parse_error
  | type_error
  | out_of_range
  deriving DecidableEq, Repr

mutual
/-- Equality of JSON values, `operator==` of `nlohmann::json`. -/
def Json.beq : Json → Json → Bool
  | .null, .null => true
  | .bool a, .bool b => a == b
  | .num a, .num b => a == b
  | .str a, .str b => a == b
  | .arr xs, .arr ys => Json.beqList xs ys
  | .obj xs, .obj ys => Json.beqMembers xs ys
  | _, _ => false
/-- Elementwise equality of two arrays. -/
def Json.beqList : List Json → List Json → Bool
  | [], [] => true
  | x :: xs, y :: ys => Json.beq x y && Json.beqList xs ys
  | _, _ => false
/-- Memberwise equality of two objects. -/
def Json.beqMembers : List (String × Json) → List (String × Json) → Bool
  | [], [] => true
  | (k, x) :: xs, (l, y) :: ys => k == l && Json.beq x y && Json.beqMembers xs ys
  | _, _ => false
end

/-- Member lookup in the member list of an object. -/
def Json.find_member (key : String) : List (String × Json) → Option Json
  | [] => none
  | (k, v) :: rest => if k = key then some v else Json.find_member key rest

/-- Assignment `members[key] = v`: replaces the member if the key is present,
adds it otherwise. -/
def Json.set_member (key : String) (v : Json) : List (String × Json) → List (String × Json)
  | [] => [(key, v)]
  | (k, w) :: rest =>
    if k = key then (key, v) :: rest else (k, w) :: Json.set_member key v rest

/-- Checked member access `j.at(key)`: `type_error` when `j` is not an object,
`out_of_range` when the key is missing. -/
def Json.at_ (j : Json) (key : String) : Except JsonError Json :=
  match j with
  | .obj kvs =>
    match Json.find_member key kvs with
    | some v => .ok v
    | none => .error .out_of_range
  | _ => .error .type_error

/-- Conversion `get_to(std::string&)`: `type_error` unless the value is a string. -/
def Json.get_string : Json → Except JsonError String
  | .str s => .ok s
  | _ => .error .type_error

/-- Conversion `get_to(bool&)`: `type_error` unless the value is a boolean. -/
def Json.get_bool : Json → Except JsonError Bool
  | .bool b => .ok b
  | _ => .error .type_error

/-- Append `j.push_back(v)`: a null value becomes a one-element array, an array grows
by one element at the end, any other value raises `type_error`. -/
def Json.push_back (j v : Json) : Except JsonError Json :=
  match j with
  | .null => .ok (.arr [v])
  | .arr xs => .ok (.arr (xs ++ [v]))
  | _ => .error .type_error

/-- Number of elements `j.size()`: 0 for null, the length for arrays and objects,
1 for the scalar values. -/
def Json.size : Json → Nat
  | .null => 0
  | .arr xs => xs.length
  | .obj kvs => kvs.length
  | _ => 1

/-- Modelled from the spec: the `to_json` half of `NLOHMANN_JSON_SERIALIZE_ENUM`
(json.hpp is not among the sources).  The first table entry whose enum value equals `e`
gives the JSON value; an unlisted enum value serializes as the first table entry. -/
def serialize_enum_to_json {E : Type} [DecidableEq E] [Inhabited E]
    (m : List (E × Json)) (e : E) : Json :=
  match m.find? (fun p => decide (p.1 = e)) with
  | some p => p.2
  | none => (m.headD (default, Json.null)).2

/-- Modelled from the spec: the `from_json` half of `NLOHMANN_JSON_SERIALIZE_ENUM`
(json.hpp is not among the sources).  The first table entry whose JSON value equals `j`
gives the enum value; an unlisted JSON value deserializes as the first table entry. -/
def serialize_enum_from_json {E : Type} [Inhabited E]
    (m : List (E × Json)) (j : Json) : E :=
  match m.find? (fun p => Json.beq p.2 j) with
  | some p => p.1
  | none => (m.headD (default, Json.null)).1

/-! ## Card types -/

/-- Chipset types, `enum class WiFiCardType`. -/
inductive WiFiCardType where
  | Unknown
  | Realtek8812au
  | Realtek8814au
  | Realtek88x2bu
  | Realtek8188eu
  | Atheros9khtc
  | Atheros9k
  | Ralink
  | Intel
  | Broadcom
  deriving DecidableEq, Repr, Inhabited

/-- The table of `NLOHMANN_JSON_SERIALIZE_ENUM( WiFiCardType, ... )`, entry by entry as in
the source: `Realtek8188eu` is listed twice and `Realtek8812au` is not listed. -/
def WiFiCardType.json_table : List (WiFiCardType × Json) :=
  [ (.Unknown, .null),
    (.Realtek8188eu, .str "Realtek8188eu"),
    (.Realtek8814au, .str "Realtek8814au"),
    (.Realtek88x2bu, .str "Realtek88x2bu"),
    (.Realtek8188eu, .str "Realtek8188eu"),
    (.Atheros9khtc, .str "Atheros9khtc"),
    (.Atheros9k, .str "Atheros9k"),
    (.Ralink, .str "Ralink"),
    (.Intel, .str "Intel"),
    (.Broadcom, .str "Broadcom") ]

/-- Serializer of `WiFiCardType` generated by the enum table. -/
def WiFiCardType.to_json (e : WiFiCardType) : Json :=
  serialize_enum_to_json WiFiCardType.json_table e

/-- Deserializer of `WiFiCardType` generated by the enum table. -/
def WiFiCardType.from_json (j : Json) : WiFiCardType :=
  serialize_enum_from_json WiFiCardType.json_table j

/-- Canonical driver-module string of a card type; the `switch` has no case for
`Realtek8814au` (nor for `Unknown`), which take the `default` branch. -/
def wifi_card_type_to_string (card_type : WiFiCardType) : String :=
  match card_type with
  | .Atheros9k => "ath9k"
  | .Atheros9khtc => "ath9k_htc"
  | .Realtek8812au => "88xxau"
  | .Realtek88x2bu => "88x2bu"
  | .Realtek8188eu => "8188eu"
  | .Ralink => "rt2800usb"
  | .Intel => "iwlwifi"
  | .Broadcom => "brcmfmac"
  | _ => "unknown"

/-! ## Card settings -/

/-- Intended use of a card, `enum class WifiUseFor`. -/
inductive WifiUseFor where
  | Unknown
  | MonitorMode
  | Hotspot
  deriving DecidableEq, Repr, Inhabited

/-- The table of `NLOHMANN_JSON_SERIALIZE_ENUM( WifiUseFor, ... )`. -/
def WifiUseFor.json_table : List (WifiUseFor × Json) :=
  [ (.Unknown, .null),
    (.MonitorMode, .str "MonitorMode"),
    (.Hotspot, .str "Hotspot") ]

/-- Serializer of `WifiUseFor` generated by the enum table. -/
def WifiUseFor.to_json (e : WifiUseFor) : Json :=
  serialize_enum_to_json WifiUseFor.json_table e

/-- Deserializer of `WifiUseFor` generated by the enum table. -/
def WifiUseFor.from_json (j : Json) : WifiUseFor :=
  serialize_enum_from_json WifiUseFor.json_table j

/-- Default transmission power. -/
def DEFAULT_WIFI_TX_POWER : String := "3100"

/-- Mutable settings of a card, `struct WifiCardSettings` with its member initializers. -/
structure WifiCardSettings where
  use_for : WifiUseFor := WifiUseFor.Unknown
  frequency : String := ""
  txpower : String := DEFAULT_WIFI_TX_POWER
  deriving DecidableEq, Repr

/-- Serializer generated by
`NLOHMANN_DEFINE_TYPE_NON_INTRUSIVE(WifiCardSettings,use_for,frequency,txpower)`:
on a fresh value, `j["name"] = member` for each listed member, in the listed order. -/
def WifiCardSettings.to_json (t : WifiCardSettings) : Json :=
  .obj (Json.set_member "txpower" (.str t.txpower)
       (Json.set_member "frequency" (.str t.frequency)
       (Json.set_member "use_for" (WifiUseFor.to_json t.use_for) [])))

/-- Deserializer generated by
`NLOHMANN_DEFINE_TYPE_NON_INTRUSIVE(WifiCardSettings,use_for,frequency,txpower)`:
`j.at("name").get_to(member)` for each listed member, in the listed order. -/
def WifiCardSettings.from_json (j : Json) : Except JsonError WifiCardSettings := do
  let use_for := WifiUseFor.from_json (← j.at_ "use_for")
  let frequency ← (← j.at_ "frequency").get_string
  let txpower ← (← j.at_ "txpower").get_string
  pure { use_for := use_for, frequency := frequency, txpower := txpower }

/-! ## Cards -/

/-- Discovered wifi card, `struct WiFiCard` with its member initializers. -/
structure WiFiCard where
  driver_name : String := ""
  type : WiFiCardType := WiFiCardType.Unknown
  interface_name : String := ""
  mac : String := ""
  supports_5ghz : Bool := false
  supports_2ghz : Bool := false
  supports_injection : Bool := false
  supports_hotspot : Bool := false
  supports_rts : Bool := false
  settings : WifiCardSettings := {}
  deriving DecidableEq, Repr

/-- Serializer generated by `NLOHMANN_DEFINE_TYPE_NON_INTRUSIVE(WiFiCard, ...)`. -/
def WiFiCard.to_json (t : WiFiCard) : Json :=
  .obj (Json.set_member "settings" (WifiCardSettings.to_json t.settings)
       (Json.set_member "supports_rts" (.bool t.supports_rts)
       (Json.set_member "supports_hotspot" (.bool t.supports_hotspot)
       (Json.set_member "supports_injection" (.bool t.supports_injection)
       (Json.set_member "supports_2ghz" (.bool t.supports_2ghz)
       (Json.set_member "supports_5ghz" (.bool t.supports_5ghz)
       (Json.set_member "mac" (.str t.mac)
       (Json.set_member "interface_name" (.str t.interface_name)
       (Json.set_member "type" (WiFiCardType.to_json t.type)
       (Json.set_member "driver_name" (.str t.driver_name) []))))))))))

/-- Deserializer generated by `NLOHMANN_DEFINE_TYPE_NON_INTRUSIVE(WiFiCard, ...)`. -/
def WiFiCard.from_json (j : Json) : Except JsonError WiFiCard := do
  let driver_name ← (← j.at_ "driver_name").get_string
  let type := WiFiCardType.from_json (← j.at_ "type")
  let interface_name ← (← j.at_ "interface_name").get_string
  let mac ← (← j.at_ "mac").get_string
  let supports_5ghz ← (← j.at_ "supports_5ghz").get_bool
  let supports_2ghz ← (← j.at_ "supports_2ghz").get_bool
  let supports_injection ← (← j.at_ "supports_injection").get_bool
  let supports_hotspot ← (← j.at_ "supports_hotspot").get_bool
  let supports_rts ← (← j.at_ "supports_rts").get_bool
  let settings ← WifiCardSettings.from_json (← j.at_ "settings")
  pure { driver_name := driver_name, type := type, interface_name := interface_name,
         mac := mac, supports_5ghz := supports_5ghz, supports_2ghz := supports_2ghz,
         supports_injection := supports_injection, supports_hotspot := supports_hotspot,
         supports_rts := supports_rts, settings := settings }

/-! ## Files and the settings directory -/

/-- Content of a file, as the JSON stream reader classifies it: text on which
`operator>>` throws `parse_error`, or a document denoting the JSON value `j`. -/
inductive FileContent where
  | malformed (text : String)
  | document (j : Json)

/-- Text written by `stream << j.dump(4)`: a document denoting `j`. -/
def Json.dump (j : Json) : FileContent := .document j

/-- Stream extraction `f >> j`: `parse_error` on malformed text, the denoted value
otherwise. -/
def Json.parse : FileContent → Except JsonError Json
  | .malformed _ => .error .parse_error
  | .document j => .ok j

/-- The C string of a `std::string`, what `c_str()` hands to the file system: the
characters before the first NUL. -/
def c_str (s : String) : String :=
  String.mk (s.data.takeWhile (fun c => c != Char.ofNat 0))

/-- A name that the file system accepts for a file of a directory: not empty, not `.` or
`..`, without `/` and without NUL, at most 255 bytes long. -/
def is_file_name (name : String) : Bool :=
  name != "" && name != "." && name != ".." &&
  !(name.data.contains '/') && !(name.data.contains (Char.ofNat 0)) &&
  decide (name.utf8ByteSize ≤ 255)

/-- The file of the directory at `dir` that `path` addresses: `path`, as a C string, must
be `dir` followed by a file name.  Any other path addresses no file of the directory. -/
def file_name_in (dir path : String) : Option String :=
  let p := c_str path
  let name := String.mk (p.data.drop dir.data.length)
  if dir.data.isPrefixOf p.data && is_file_name name then some name else none

/-- Files of a directory: file name and content. -/
abbrev Files := List (String × FileContent)

/-- Content of the file called `name`, if there is one. -/
def Files.read (name : String) : Files → Option FileContent
  | [] => none
  | (p, c) :: rest => if p = name then some c else Files.read name rest

/-- Replace the content of the file called `name`, creating the file if there is none. -/
def Files.write (name : String) (c : FileContent) : Files → Files
  | [] => [(name, c)]
  | (p, d) :: rest => if p = name then (name, c) :: rest else (p, d) :: Files.write name c rest

/-- State of the settings directory: `none` when the directory does not exist. -/
abbrev Store := Option Files

/-- Content of the file called `name` in the store, if the directory and the file exist. -/
def Store.file (st : Store) (name : String) : Option FileContent :=
  match st with
  | none => none
  | some files => Files.read name files

/-- Content of the file that `path` addresses in the store, the directory at `dir`:
none when the path addresses no file of the directory or the file does not exist. -/
def Store.read (st : Store) (dir path : String) : Option FileContent :=
  match file_name_in dir path with
  | none => none
  | some name => st.file name

/-- Modelled from the spec: `OHDFilesystemUtil::exists` (openhd-util-filesystem.hpp is not
among the sources) applied to the settings directory: "verify the settings directory
exists". -/
def OHDFilesystemUtil.exists_directory (st : Store) : Bool := st.isSome

/-- Modelled from the spec: `OHDFilesystemUtil::exists` (openhd-util-filesystem.hpp is not
among the sources) applied to `filename.c_str()`, the path of a settings file. -/
def OHDFilesystemUtil.exists_file (st : Store) (dir path : String) : Bool :=
  (st.read dir path).isSome

/-- Modelled from the spec: `OHDFilesystemUtil::create_directory`
(openhd-util-filesystem.hpp is not among the sources): "create it (including parents) if
absent", an existing directory is left as it is. -/
def OHDFilesystemUtil.create_directory (st : Store) : Store :=
  match st with
  | none => some []
  | some files => some files

/-- Writing through `std::ofstream t(path); t << c; t.close();` with the stream never
tested: the file is replaced (or created) when the directory exists and the path addresses
a file of it; otherwise the stream fails to open and nothing is written. -/
def Store.write (st : Store) (dir path : String) (c : FileContent) : Store :=
  match st, file_name_in dir path with
  | some files, some name => some (Files.write name c files)
  | _, _ => st

/-! ## The card holder -/

/-- Directory of the settings files, `std::string(BASE_PATH)+std::string("interface/")`;
`BASE_PATH` comes from openhd-settings.hpp, which is not among the sources, and is a
parameter: a C string constant, of which `std::string(BASE_PATH)` takes the characters
before the first NUL. -/
def WIFI_SETTINGS_DIRECTORY (BASE_PATH : String) : String := c_str BASE_PATH ++ "interface/"

/-- Holder of a card and its settings, `class WifiCardHolder` after construction. -/
structure WifiCardHolder where
  _wifi_card : WiFiCard
  _settings : WifiCardSettings
  deriving DecidableEq, Repr

/-- Accessor `get_settings()`. -/
def WifiCardHolder.get_settings (h : WifiCardHolder) : WifiCardSettings := h._settings

/-- Identity key of a card: type string, underscore, MAC. -/
def WifiCardHolder.get_uniqe_hash (_wifi_card : WiFiCard) : String :=
  wifi_card_type_to_string _wifi_card.type ++ "_" ++ _wifi_card.mac

/-- Path of the settings file of a card. -/
def WifiCardHolder.get_unique_filename (BASE_PATH : String) (_wifi_card : WiFiCard) : String :=
  WIFI_SETTINGS_DIRECTORY BASE_PATH ++ WifiCardHolder.get_uniqe_hash _wifi_card

/-- Write the settings to the settings file of the card; the stream is not tested, so
nothing is written when it fails to open. -/
def WifiCardHolder.persist_settings (BASE_PATH : String) (_wifi_card : WiFiCard)
    (_settings : WifiCardSettings) (st : Store) : Store :=
  let filename := WifiCardHolder.get_unique_filename BASE_PATH _wifi_card
  let tmp := WifiCardSettings.to_json _settings
  st.write (WIFI_SETTINGS_DIRECTORY BASE_PATH) filename tmp.dump

/-- Read the last settings of the card, if its settings file exists. -/
def WifiCardHolder.read_last_settings (BASE_PATH : String) (_wifi_card : WiFiCard)
    (st : Store) : Except JsonError (Option WifiCardSettings) :=
  let filename := WifiCardHolder.get_unique_filename BASE_PATH _wifi_card
  match st.read (WIFI_SETTINGS_DIRECTORY BASE_PATH) filename with
  | none => .ok none
  | some f => do
    let j ← Json.parse f
    let s ← WifiCardSettings.from_json j
    pure (some s)

/-- Constructor `WifiCardHolder(WiFiCard)`: the outcome (a holder, or the exception that
escapes) and the store it leaves behind. -/
def WifiCardHolder.construct (BASE_PATH : String) (wifi_card : WiFiCard) (st : Store) :
    Except JsonError WifiCardHolder × Store :=
  let st1 :=
    if !OHDFilesystemUtil.exists_directory st then OHDFilesystemUtil.create_directory st
    else st
  match WifiCardHolder.read_last_settings BASE_PATH wifi_card st1 with
  | .error e => (.error e, st1)
  | .ok (some last_settings) =>
    (.ok { _wifi_card := wifi_card, _settings := last_settings }, st1)
  | .ok none =>
    let _settings : WifiCardSettings := {}
    (.ok { _wifi_card := wifi_card, _settings := _settings },
      WifiCardHolder.persist_settings BASE_PATH wifi_card _settings st1)

/-! ## Manifest -/

/-- Manifest document of a list of cards: starting from a default-constructed (null)
value, every card is serialized and appended with `push_back`. -/
def wificards_to_json (cards : List WiFiCard) : Except JsonError Json :=
  cards.foldlM (fun j _card => j.push_back (WiFiCard.to_json _card)) Json.null

/-- Path of the manifest file. -/
def WIFI_MANIFEST_FILENAME : String := "/tmp/wifi_manifest"

/-- Write the manifest of the cards to the manifest file; `tmp` is the state of the
directory `/tmp/`, and the stream is not tested. -/
def write_wificards_manifest (cards : List WiFiCard) (tmp : Store) : Except JsonError Store := do
  let manifest ← wificards_to_json cards
  pure (tmp.write "/tmp/" WIFI_MANIFEST_FILENAME manifest.dump)

/-! ## Vocabulary of the properties -/

/-- Whether a JSON value is a string. -/
def Json.is_string : Json → Bool
  | .str _ => true
  | _ => false

/-- A settings document: an object carrying the keys `use_for`, `frequency` and `txpower`,
the latter two with string values. -/
def is_settings_document : Json → Bool
  | .obj kvs =>
    (Json.find_member "use_for" kvs).isSome &&
    ((Json.find_member "frequency" kvs).any Json.is_string &&
     (Json.find_member "txpower" kvs).any Json.is_string)
  | _ => false

/-- The value is an object whose member names are exactly `names`. -/
def has_exactly_fields (j : Json) (names : List String) : Prop :=
  ∃ kvs, j = Json.obj kvs ∧ ∀ k, (Json.find_member k kvs).isSome = true ↔ k ∈ names

/-- Adapter A of the spec. -/
def card_A : WiFiCard :=
  { type := WiFiCardType.Atheros9k, mac := "AA:BB:CC:00:11:22",
    supports_5ghz := false, supports_injection := true }

/-- Adapter B of the spec. -/
def card_B : WiFiCard :=
  { type := WiFiCardType.Realtek8812au, mac := "DE:AD:BE:EF:00:01",
    supports_5ghz := true, supports_hotspot := true }

/-- A card whose MAC string contains a slash. -/
def card_with_slash : WiFiCard :=
  { type := WiFiCardType.Atheros9k, mac := "x/y" }

/-- A card whose MAC string contains a NUL character. -/
def card_with_nul : WiFiCard :=
  { type := WiFiCardType.Atheros9k, mac := "AA\x00BB" }

/-- A card whose MAC string is 256 characters long. -/
def card_with_long_mac : WiFiCard :=
  { type := WiFiCardType.Atheros9k, mac := String.mk (List.replicate 256 'A') }

/-! ## Auxiliary facts -/

theorem Files.read_write_same (path : String) (c : FileContent) (files : Files) :
    Files.read path (Files.write path c files) = some c := by
  induction files with
  | nil => simp [Files.write, Files.read]
  | cons hd tl ih =>
    obtain ⟨p, d⟩ := hd
    by_cases h : p = path
    · simp [Files.write, Files.read, h]
    · simp [Files.write, Files.read, h, ih]

theorem Files.read_write_other (path other : String) (c : FileContent) (files : Files)
    (hne : other ≠ path) :
    Files.read other (Files.write path c files) = Files.read other files := by
  induction files with
  | nil => simp [Files.write, Files.read, Ne.symm hne]
  | cons hd tl ih =>
    obtain ⟨p, d⟩ := hd
    by_cases h : p = path
    · subst h
      simp [Files.write, Files.read, Ne.symm hne]
    · by_cases h2 : p = other
      · subst h2
        simp [Files.write, Files.read, h]
      · simp [Files.write, Files.read, h, h2, ih]

theorem WifiCardSettings.settings_roundtrip (s : WifiCardSettings) :
    WifiCardSettings.from_json (WifiCardSettings.to_json s) = .ok s := by
  obtain ⟨u, f, t⟩ := s
  cases u <;> rfl

theorem WifiCardSettings.to_json_is_settings_document (s : WifiCardSettings) :
    is_settings_document (WifiCardSettings.to_json s) = true := by
  obtain ⟨u, f, t⟩ := s
  cases u <;> rfl

theorem c_str_data_no_nul (s : String) : ∀ c ∈ (c_str s).data, (c != Char.ofNat 0) = true := by
  intro c hc
  exact List.mem_takeWhile_imp (p := fun c => c != Char.ofNat 0) hc

theorem c_str_of_no_nul (s : String) (h : ∀ c ∈ s.data, (c != Char.ofNat 0) = true) :
    c_str s = s := by
  apply String.ext
  exact List.takeWhile_eq_self_iff.2 h

theorem c_str_append_of_no_nul (a b : String)
    (h : ∀ c ∈ a.data, (c != Char.ofNat 0) = true) :
    c_str (a ++ b) = a ++ c_str b := by
  apply String.ext
  simp only [c_str, String.data_append]
  exact List.takeWhile_append_of_pos h

theorem WIFI_SETTINGS_DIRECTORY_no_nul (BASE_PATH : String) :
    ∀ c ∈ (WIFI_SETTINGS_DIRECTORY BASE_PATH).data, (c != Char.ofNat 0) = true := by
  intro c hc
  simp only [WIFI_SETTINGS_DIRECTORY, String.data_append, List.mem_append] at hc
  rcases hc with hc | hc
  · exact c_str_data_no_nul BASE_PATH c hc
  · revert c
    decide

theorem is_file_name_no_nul (name : String) (h : is_file_name name = true) :
    ∀ c ∈ name.data, (c != Char.ofNat 0) = true := by
  intro c hc
  simp only [is_file_name, Bool.and_eq_true, Bool.not_eq_true', List.contains_eq_any_beq,
    List.any_eq_false, beq_iff_eq] at h
  have h0 := h.1.2 c hc
  simpa [bne_iff_ne] using fun hh => h0 hh.symm

/-- The settings path of an identity key that is a file name addresses the file of that
name in the settings directory. -/
theorem file_name_in_settings_directory (BASE_PATH key : String)
    (h : is_file_name key = true) :
    file_name_in (WIFI_SETTINGS_DIRECTORY BASE_PATH) (WIFI_SETTINGS_DIRECTORY BASE_PATH ++ key) =
      some key := by
  have hc : c_str (WIFI_SETTINGS_DIRECTORY BASE_PATH ++ key) =
      WIFI_SETTINGS_DIRECTORY BASE_PATH ++ key := by
    rw [c_str_append_of_no_nul _ _ (WIFI_SETTINGS_DIRECTORY_no_nul BASE_PATH),
      c_str_of_no_nul key (is_file_name_no_nul key h)]
  have hd : String.mk (List.drop (WIFI_SETTINGS_DIRECTORY BASE_PATH).data.length
      (WIFI_SETTINGS_DIRECTORY BASE_PATH ++ key).data) = key := by
    apply String.ext
    simp [String.data_append]
  have hp : (WIFI_SETTINGS_DIRECTORY BASE_PATH).data.isPrefixOf
      (WIFI_SETTINGS_DIRECTORY BASE_PATH ++ key).data = true := by
    rw [List.isPrefixOf_iff_prefix, String.data_append]
    exact List.prefix_append _ _
  simp only [file_name_in, hc, hd, hp, h, Bool.and_self, if_true]

theorem Store.read_after_write (files : Files) (dir path : String) (c : FileContent) :
    (Store.write (some files) dir path c).read dir path =
      (file_name_in dir path).map (fun _ => c) := by
  cases hn : file_name_in dir path with
  | none => simp [Store.write, Store.read, hn]
  | some name => simp [Store.write, Store.read, Store.file, hn, Files.read_write_same]

theorem Store.file_after_write_other (st : Store) (dir path name : String) (c : FileContent)
    (hne : ∀ n, file_name_in dir path = some n → name ≠ n) :
    (st.write dir path c).file name = st.file name := by
  cases st with
  | none => cases hn : file_name_in dir path <;> simp [Store.write, hn, Store.file]
  | some files =>
    cases hn : file_name_in dir path with
    | none => simp [Store.write, hn]
    | some n =>
      simp only [Store.write, hn, Store.file]
      exact Files.read_write_other n name c files (hne n hn)

theorem store_of_read_some (st : Store) (dir path : String) (f : FileContent)
    (h : st.read dir path = some f) : st = some (st.getD []) := by
  cases st with
  | none => cases hn : file_name_in dir path <;> simp [Store.read, Store.file, hn] at h
  | some files => rfl

theorem Store.read_getD (st : Store) (dir path : String) :
    Store.read (some (st.getD [])) dir path = st.read dir path := by
  cases st with
  | none => cases hn : file_name_in dir path <;> simp [Store.read, Store.file, hn, Files.read]
  | some files => rfl

theorem WifiCardSettings.from_json_toBool (j : Json) :
    (WifiCardSettings.from_json j).toBool = is_settings_document j := by
  cases j with
  | obj kvs =>
    cases hu : Json.find_member "use_for" kvs with
    | none =>
      simp [WifiCardSettings.from_json, Json.at_, hu, bind, Except.bind, is_settings_document,
        Except.toBool]
    | some u =>
      cases hf : Json.find_member "frequency" kvs with
      | none =>
        simp [WifiCardSettings.from_json, Json.at_, hu, hf, bind, Except.bind,
          is_settings_document, Except.toBool]
      | some f =>
        cases ht : Json.find_member "txpower" kvs with
        | none =>
          cases f <;>
            simp [WifiCardSettings.from_json, Json.at_, hu, hf, ht, bind, Except.bind,
              is_settings_document, Except.toBool, Json.get_string]
        | some t =>
          cases f <;> cases t <;>
            simp [WifiCardSettings.from_json, Json.at_, hu, hf, ht, bind, Except.bind,
              is_settings_document, Except.toBool, Json.get_string, Json.is_string, pure,
              Except.pure]
  | _ =>
    simp [WifiCardSettings.from_json, Json.at_, bind, Except.bind, is_settings_document,
      Except.toBool]

theorem WifiCardSettings.from_json_error_of_not_document (j : Json)
    (h : is_settings_document j = false) :
    ∃ e, WifiCardSettings.from_json j = .error e := by
  have hb := WifiCardSettings.from_json_toBool j
  rw [h] at hb
  cases hj : WifiCardSettings.from_json j with
  | error e => exact ⟨e, rfl⟩
  | ok s => simp [hj, Except.toBool] at hb

theorem WifiCardSettings.from_json_ok_of_document (j : Json)
    (h : is_settings_document j = true) :
    ∃ s, WifiCardSettings.from_json j = .ok s := by
  have hb := WifiCardSettings.from_json_toBool j
  rw [h] at hb
  cases hj : WifiCardSettings.from_json j with
  | error e => simp [hj, Except.toBool] at hb
  | ok s => exact ⟨s, rfl⟩

theorem WifiCardHolder.construct_absent (BASE_PATH : String) (card : WiFiCard) (st : Store)
    (h : st.read (WIFI_SETTINGS_DIRECTORY BASE_PATH)
      (WifiCardHolder.get_unique_filename BASE_PATH card) = none) :
    WifiCardHolder.construct BASE_PATH card st =
      (.ok { _wifi_card := card, _settings := {} },
        Store.write (some (st.getD [])) (WIFI_SETTINGS_DIRECTORY BASE_PATH)
          (WifiCardHolder.get_unique_filename BASE_PATH card)
          (WifiCardSettings.to_json {}).dump) := by
  rw [← Store.read_getD] at h
  cases st with
  | none =>
    simp only [Option.getD] at h
    simp [WifiCardHolder.construct, OHDFilesystemUtil.exists_directory,
      OHDFilesystemUtil.create_directory, WifiCardHolder.read_last_settings, h,
      WifiCardHolder.persist_settings]
  | some files =>
    simp only [Option.getD] at h
    simp [WifiCardHolder.construct, OHDFilesystemUtil.exists_directory,
      WifiCardHolder.read_last_settings, h, WifiCardHolder.persist_settings]

theorem WifiCardHolder.construct_present (BASE_PATH : String) (card : WiFiCard) (st : Store)
    (f : FileContent)
    (h : st.read (WIFI_SETTINGS_DIRECTORY BASE_PATH)
      (WifiCardHolder.get_unique_filename BASE_PATH card) = some f) :
    WifiCardHolder.construct BASE_PATH card st =
      (match Json.parse f >>= WifiCardSettings.from_json with
        | .error e => .error e
        | .ok s => .ok { _wifi_card := card, _settings := s }, st) := by
  have hst := store_of_read_some st _ _ f h
  generalize st.getD [] = files at hst
  subst hst
  cases hp : Json.parse f with
  | error e =>
    simp [WifiCardHolder.construct, OHDFilesystemUtil.exists_directory,
      WifiCardHolder.read_last_settings, h, hp, bind, Except.bind]
  | ok j =>
    cases hj : WifiCardSettings.from_json j with
    | error e =>
      simp [WifiCardHolder.construct, OHDFilesystemUtil.exists_directory,
        WifiCardHolder.read_last_settings, h, hp, hj, bind, Except.bind,
        Functor.map, Except.map]
    | ok s =>
      simp [WifiCardHolder.construct, OHDFilesystemUtil.exists_directory,
        WifiCardHolder.read_last_settings, h, hp, hj, bind, Except.bind,
        Functor.map, Except.map, pure, Except.pure]

theorem WifiCardHolder.construct_after_default (BASE_PATH : String) (card other : WiFiCard)
    (files : Files)
    (hp : WifiCardHolder.get_unique_filename BASE_PATH other =
      WifiCardHolder.get_unique_filename BASE_PATH card) :
    WifiCardHolder.construct BASE_PATH other
        (Store.write (some files) (WIFI_SETTINGS_DIRECTORY BASE_PATH)
          (WifiCardHolder.get_unique_filename BASE_PATH card)
          (WifiCardSettings.to_json {}).dump) =
      (.ok { _wifi_card := other, _settings := {} },
        Store.write (some files) (WIFI_SETTINGS_DIRECTORY BASE_PATH)
          (WifiCardHolder.get_unique_filename BASE_PATH card)
          (WifiCardSettings.to_json {}).dump) := by
  cases hn : file_name_in (WIFI_SETTINGS_DIRECTORY BASE_PATH)
      (WifiCardHolder.get_unique_filename BASE_PATH card) with
  | none =>
    have hw : Store.write (some files) (WIFI_SETTINGS_DIRECTORY BASE_PATH)
        (WifiCardHolder.get_unique_filename BASE_PATH card)
        (WifiCardSettings.to_json {}).dump = some files := by
      simp [Store.write, hn]
    rw [hw, WifiCardHolder.construct_absent BASE_PATH other (some files)
      (by rw [hp]; simp [Store.read, hn]), hp]
    simp [hw]
  | some name =>
    rw [WifiCardHolder.construct_present BASE_PATH other _ (WifiCardSettings.to_json {}).dump
      (by rw [hp, Store.read_after_write, hn]; rfl)]
    rfl

theorem WiFiCardType.card_type_roundtrip (t : WiFiCardType) :
    WiFiCardType.from_json (WiFiCardType.to_json t) =
      if t = WiFiCardType.Realtek8812au then WiFiCardType.Unknown else t := by
  cases t <;> rfl

theorem WiFiCard.card_document (c : WiFiCard) :
    WiFiCard.to_json c = Json.obj
      [ ("driver_name", .str c.driver_name), ("type", WiFiCardType.to_json c.type),
        ("interface_name", .str c.interface_name), ("mac", .str c.mac),
        ("supports_5ghz", .bool c.supports_5ghz), ("supports_2ghz", .bool c.supports_2ghz),
        ("supports_injection", .bool c.supports_injection),
        ("supports_hotspot", .bool c.supports_hotspot), ("supports_rts", .bool c.supports_rts),
        ("settings", WifiCardSettings.to_json c.settings) ] := by
  simp [WiFiCard.to_json, Json.set_member]

theorem WiFiCard.card_roundtrip (c : WiFiCard) :
    WiFiCard.from_json (WiFiCard.to_json c) =
      .ok { c with type := WiFiCardType.from_json (WiFiCardType.to_json c.type) } := by
  rw [WiFiCard.card_document]
  simp [WiFiCard.from_json, Json.at_, Json.find_member, Json.get_string, Json.get_bool, bind,
    Except.bind, WifiCardSettings.settings_roundtrip, pure, Except.pure]

/-- Serializing a card and deserializing the document gives the card back exactly when the
type of the card is not `Realtek8812au`, the variant missing from the enum table. -/
theorem WiFiCard.card_roundtrip_iff (c : WiFiCard) :
    WiFiCard.from_json (WiFiCard.to_json c) = .ok c ↔ c.type ≠ WiFiCardType.Realtek8812au := by
  rw [WiFiCard.card_roundtrip, WiFiCardType.card_type_roundtrip]
  obtain ⟨d, t, i, m, b5, b2, bi, bh, br, st⟩ := c
  by_cases h : t = WiFiCardType.Realtek8812au
  · subst h
    simp
  · simp [h]

theorem list_split_at_separator {α : Type} (x : α) :
    ∀ (a a2 b b2 : List α), x ∉ b → x ∉ b2 → a ++ x :: b = a2 ++ x :: b2 → a = a2 ∧ b = b2 := by
  intro a
  induction a with
  | nil =>
    intro a2 b b2 hb hb2 h
    cases a2 with
    | nil => simpa using h
    | cons y ys =>
      simp only [List.nil_append, List.cons_append, List.cons.injEq] at h
      exact absurd (by rw [h.2]; simp) hb
  | cons z zs ih =>
    intro a2 b b2 hb hb2 h
    cases a2 with
    | nil =>
      simp only [List.nil_append, List.cons_append, List.cons.injEq] at h
      exact absurd (by rw [← h.2]; simp) hb2
    | cons y ys =>
      simp only [List.cons_append, List.cons.injEq] at h
      obtain ⟨h1, h2⟩ := ih ys b b2 hb hb2 h.2
      exact ⟨by rw [h.1, h1], h2⟩

theorem WifiCardHolder.get_uniqe_hash_data (c : WiFiCard) :
    (WifiCardHolder.get_uniqe_hash c).data =
      (wifi_card_type_to_string c.type).data ++ '_' :: c.mac.data := by
  simp [WifiCardHolder.get_uniqe_hash, String.data_append]

theorem wificards_fold (cards : List WiFiCard) (xs : List Json) :
    cards.foldlM (fun j _card => j.push_back (WiFiCard.to_json _card)) (Json.arr xs) =
      Except.ok (Json.arr (xs ++ cards.map WiFiCard.to_json)) := by
  induction cards generalizing xs with
  | nil => simp [pure, Except.pure]
  | cons c cs ih =>
    rw [List.foldlM_cons]
    show List.foldlM _ (Json.arr (xs ++ [WiFiCard.to_json c])) cs = _
    rw [ih]
    simp

/-- For a list of cards that is not empty the manifest is the array of the serialized
cards, in the order of the list. -/
theorem wificards_to_json_nonempty (cards : List WiFiCard) (h : cards ≠ []) :
    wificards_to_json cards = .ok (Json.arr (cards.map WiFiCard.to_json)) := by
  cases cards with
  | nil => exact absurd rfl h
  | cons c cs =>
    rw [wificards_to_json, List.foldlM_cons]
    show List.foldlM _ (Json.arr ([] ++ [WiFiCard.to_json c])) cs = _
    rw [wificards_fold]
    simp

/-- For every list of cards `wificards_to_json` returns, and the `size()` of the result
is the number of cards; for the empty list this is the size of the null value. -/
theorem wificards_to_json_size (cards : List WiFiCard) :
    ∃ j, wificards_to_json cards = .ok j ∧ j.size = cards.length := by
  cases cards with
  | nil => exact ⟨Json.null, rfl, rfl⟩
  | cons c cs =>
    exact ⟨_, wificards_to_json_nonempty (c :: cs) (by simp), by simp [Json.size]⟩

/-- The manifest of the two cards of the spec has exactly two entries, card A then card B. -/
theorem wificards_to_json_two_cards :
    wificards_to_json [card_A, card_B] =
      .ok (Json.arr [WiFiCard.to_json card_A, WiFiCard.to_json card_B]) := rfl

/-- What holds of `wifi_card_type_to_string` on the code: never empty, "unknown" exactly
for `Unknown` and `Realtek8814au`. -/
theorem wifi_card_type_to_string_facts :
    (∀ t, wifi_card_type_to_string t ≠ "") ∧
    wifi_card_type_to_string WiFiCardType.Unknown = "unknown" ∧
    wifi_card_type_to_string WiFiCardType.Atheros9k = "ath9k" ∧
    (∀ t, wifi_card_type_to_string t = "unknown" ↔
      (t = WiFiCardType.Unknown ∨ t = WiFiCardType.Realtek8814au)) := by
  refine ⟨?_, rfl, rfl, ?_⟩
  · intro t
    cases t <;> decide
  · intro t
    cases t <;> decide


/-- The identity key of a card is a file name exactly when the MAC contains neither `/`
nor NUL and the key is at most 255 bytes long. -/
theorem is_file_name_identity_key (card : WiFiCard) :
    is_file_name (WifiCardHolder.get_uniqe_hash card) = true ↔
      ('/' ∉ card.mac.data ∧ Char.ofNat 0 ∉ card.mac.data ∧
        (WifiCardHolder.get_uniqe_hash card).utf8ByteSize ≤ 255) := by
  have hd := WifiCardHolder.get_uniqe_hash_data card
  have hund : '_' ∈ (WifiCardHolder.get_uniqe_hash card).data := by
    rw [hd]
    simp
  have h1 : WifiCardHolder.get_uniqe_hash card ≠ "" := by
    intro h
    rw [h] at hund
    exact absurd hund (by decide)
  have h2 : WifiCardHolder.get_uniqe_hash card ≠ "." := by
    intro h
    rw [h] at hund
    exact absurd hund (by decide)
  have h3 : WifiCardHolder.get_uniqe_hash card ≠ ".." := by
    intro h
    rw [h] at hund
    exact absurd hund (by decide)
  have hs : '/' ∉ (wifi_card_type_to_string card.type).data := by
    cases card.type <;> decide
  have hz : Char.ofNat 0 ∉ (wifi_card_type_to_string card.type).data := by
    cases card.type <;> decide
  have hslash : '/' ∈ (WifiCardHolder.get_uniqe_hash card).data ↔ '/' ∈ card.mac.data := by
    rw [hd]
    simp [hs]
  have hnul : Char.ofNat 0 ∈ (WifiCardHolder.get_uniqe_hash card).data ↔
      Char.ofNat 0 ∈ card.mac.data := by
    rw [hd]
    simp only [List.mem_append, List.mem_cons, hz, false_or]
    constructor
    · rintro (h | h)
      · exact absurd h (by decide)
      · exact h
    · exact Or.inr
  simp only [is_file_name, Bool.and_eq_true, bne_iff_ne, ne_eq, h1, h2, h3, not_false_eq_true,
    true_and, Bool.not_eq_true', decide_eq_true_eq, ← Bool.not_eq_true]
  have e1 : (WifiCardHolder.get_uniqe_hash card).data.contains '/' = true ↔
      '/' ∈ card.mac.data := by
    rw [← hslash]
    simp
  have e2 : (WifiCardHolder.get_uniqe_hash card).data.contains (Char.ofNat 0) = true ↔
      Char.ofNat 0 ∈ card.mac.data := by
    rw [← hnul]
    simp
  rw [e1, e2, and_assoc]

/-- When no file exists at the path of a card, the construction succeeds with the default
settings, whatever the card and whether or not the settings file can then be written. -/
theorem WifiCardHolder.construct_defaults_when_absent (BASE_PATH : String) (card : WiFiCard)
    (st : Store)
    (h : OHDFilesystemUtil.exists_file st (WIFI_SETTINGS_DIRECTORY BASE_PATH)
      (WifiCardHolder.get_unique_filename BASE_PATH card) = false) :
    (WifiCardHolder.construct BASE_PATH card st).1 =
      .ok { _wifi_card := card,
            _settings := { use_for := WifiUseFor.Unknown, frequency := "", txpower := "3100" } } := by
  have hr : st.read (WIFI_SETTINGS_DIRECTORY BASE_PATH)
      (WifiCardHolder.get_unique_filename BASE_PATH card) = none := by
    simpa [OHDFilesystemUtil.exists_file] using h
  rw [WifiCardHolder.construct_absent BASE_PATH card st hr]
  rfl

/-- When the stream on the settings path does not open, `persist_settings` writes nothing. -/
theorem WifiCardHolder.persist_settings_stream_not_opened (BASE_PATH : String)
    (card : WiFiCard) (S : WifiCardSettings) (st : Store)
    (h : file_name_in (WIFI_SETTINGS_DIRECTORY BASE_PATH)
      (WifiCardHolder.get_unique_filename BASE_PATH card) = none) :
    WifiCardHolder.persist_settings BASE_PATH card S st = st := by
  cases st <;> simp [WifiCardHolder.persist_settings, Store.write, h]


set_option maxRecDepth 100000 in
/-- A card whose identity key is longer than a file name may be: the stream of
`persist_settings` does not open and the construction leaves no file. -/
theorem WifiCardHolder.construct_with_long_mac :
    is_file_name (WifiCardHolder.get_uniqe_hash card_with_long_mac) = false ∧
    WifiCardHolder.construct "/usr/local/share/openhd/" card_with_long_mac (some []) =
      (.ok { _wifi_card := card_with_long_mac, _settings := {} }, some []) := by
  refine ⟨?_, ?_⟩
  · decide
  · rfl

/-! ## The claims -/

/-- C1, failing on the code: card B of the spec (type `Realtek8812au`) is serialized with a
null `type`, because the enum table does not list `Realtek8812au`, and reading the
document back yields type `Unknown`; the card read back differs from card B. -/
theorem C1_card_B_loses_its_type :
    WiFiCardType.to_json card_B.type = Json.null ∧
    WiFiCard.from_json (WiFiCard.to_json card_B) =
      .ok { card_B with type := WiFiCardType.Unknown } ∧
    WiFiCard.from_json (WiFiCard.to_json card_B) ≠ .ok card_B := by
  refine ⟨rfl, rfl, ?_⟩
  rw [show WiFiCard.from_json (WiFiCard.to_json card_B) =
    .ok { card_B with type := WiFiCardType.Unknown } from rfl]
  intro h
  injection h with h
  exact absurd (congrArg WiFiCard.type h) (by decide)

/-- C2: with the settings directory present and the write succeeding (the stream on the
settings path opens), persisting settings `S` for a card and then reading the last
settings for a card with the same identity key returns `S`, equal in all three fields. -/
theorem C2_persist_then_read (BASE_PATH : String) (c1 c2 : WiFiCard) (S : WifiCardSettings)
    (files : Files)
    (hkey : WifiCardHolder.get_uniqe_hash c1 = WifiCardHolder.get_uniqe_hash c2)
    (hopen : (file_name_in (WIFI_SETTINGS_DIRECTORY BASE_PATH)
      (WifiCardHolder.get_unique_filename BASE_PATH c1)).isSome = true) :
    WifiCardHolder.read_last_settings BASE_PATH c2
      (WifiCardHolder.persist_settings BASE_PATH c1 S (some files)) = .ok (some S) := by
  obtain ⟨name, hn⟩ := Option.isSome_iff_exists.1 hopen
  have hp : WifiCardHolder.get_unique_filename BASE_PATH c2 =
      WifiCardHolder.get_unique_filename BASE_PATH c1 := by
    simp [WifiCardHolder.get_unique_filename, hkey]
  simp only [WifiCardHolder.read_last_settings, WifiCardHolder.persist_settings, hp,
    Store.read_after_write, hn, Option.map]
  simp [Json.dump, Json.parse, bind, Except.bind, WifiCardSettings.settings_roundtrip, pure,
    Except.pure]

/-- Witness of C2: two cards with the same type and MAC but different interface names. -/
theorem C2_persist_then_read_witness :
    WifiCardHolder.read_last_settings "/usr/local/share/openhd/"
      { card_A with interface_name := "wlan1" }
      (WifiCardHolder.persist_settings "/usr/local/share/openhd/"
        { card_A with interface_name := "wlan0" }
        { use_for := WifiUseFor.MonitorMode, frequency := "5180", txpower := "1500" }
        (some [])) =
      .ok (some { use_for := WifiUseFor.MonitorMode, frequency := "5180", txpower := "1500" }) :=
  C2_persist_then_read "/usr/local/share/openhd/" { card_A with interface_name := "wlan0" }
    { card_A with interface_name := "wlan1" }
    { use_for := WifiUseFor.MonitorMode, frequency := "5180", txpower := "1500" } [] rfl rfl

/-- C3 as stated fails.  For a card whose MAC is "x/y" and an empty settings directory, no
file exists at the path of the card, the stream of `persist_settings` does not open, and
after the construction there is still no file at that path: an independent read finds no
settings.  For a card whose MAC contains a NUL character the path is cut at the NUL, and
the construction creates the file `ath9k_AA`, which is not the identity key of the card. -/
theorem C3_fails_when_the_key_is_not_a_file_name :
    (OHDFilesystemUtil.exists_file (some [])
        (WIFI_SETTINGS_DIRECTORY "/usr/local/share/openhd/")
        (WifiCardHolder.get_unique_filename "/usr/local/share/openhd/" card_with_slash) = false ∧
      OHDFilesystemUtil.exists_file
        (WifiCardHolder.construct "/usr/local/share/openhd/" card_with_slash (some [])).2
        (WIFI_SETTINGS_DIRECTORY "/usr/local/share/openhd/")
        (WifiCardHolder.get_unique_filename "/usr/local/share/openhd/" card_with_slash) = false ∧
      WifiCardHolder.read_last_settings "/usr/local/share/openhd/" card_with_slash
        (WifiCardHolder.construct "/usr/local/share/openhd/" card_with_slash (some [])).2 =
        .ok none) ∧
    (OHDFilesystemUtil.exists_file (some [])
        (WIFI_SETTINGS_DIRECTORY "/usr/local/share/openhd/")
        (WifiCardHolder.get_unique_filename "/usr/local/share/openhd/" card_with_nul) = false ∧
      "ath9k_AA" ≠ WifiCardHolder.get_uniqe_hash card_with_nul ∧
      Store.file (some []) "ath9k_AA" = none ∧
      (WifiCardHolder.construct "/usr/local/share/openhd/" card_with_nul (some [])).2.file
        "ath9k_AA" = some (WifiCardSettings.to_json {}).dump) := by
  refine ⟨⟨rfl, rfl, rfl⟩, rfl, ?_, rfl, rfl⟩
  decide

/-- C3, amended: for a card whose identity key is a file name (not empty, without `/` and
NUL, at most 255 bytes), when no file exists at the identity path of the card,
constructing the holder succeeds with the default settings (use `Unknown`, empty
frequency, txpower "3100"); afterwards a file exists at that path, an independent read of
it returns the same defaults, and every other file of the store is as before. -/
theorem C3_first_construction_defaults (BASE_PATH : String) (card : WiFiCard) (st : Store)
    (hname : is_file_name (WifiCardHolder.get_uniqe_hash card) = true)
    (h : OHDFilesystemUtil.exists_file st (WIFI_SETTINGS_DIRECTORY BASE_PATH)
      (WifiCardHolder.get_unique_filename BASE_PATH card) = false) :
    (WifiCardHolder.construct BASE_PATH card st).1 =
      .ok { _wifi_card := card,
            _settings := { use_for := WifiUseFor.Unknown, frequency := "", txpower := "3100" } } ∧
    OHDFilesystemUtil.exists_file (WifiCardHolder.construct BASE_PATH card st).2
      (WIFI_SETTINGS_DIRECTORY BASE_PATH)
      (WifiCardHolder.get_unique_filename BASE_PATH card) = true ∧
    WifiCardHolder.read_last_settings BASE_PATH card
      (WifiCardHolder.construct BASE_PATH card st).2 =
      .ok (some { use_for := WifiUseFor.Unknown, frequency := "", txpower := "3100" }) ∧
    ∀ name, name ≠ WifiCardHolder.get_uniqe_hash card →
      (WifiCardHolder.construct BASE_PATH card st).2.file name = st.file name := by
  have hn : file_name_in (WIFI_SETTINGS_DIRECTORY BASE_PATH)
      (WifiCardHolder.get_unique_filename BASE_PATH card) =
      some (WifiCardHolder.get_uniqe_hash card) :=
    file_name_in_settings_directory BASE_PATH _ hname
  have hr : st.read (WIFI_SETTINGS_DIRECTORY BASE_PATH)
      (WifiCardHolder.get_unique_filename BASE_PATH card) = none := by
    simpa [OHDFilesystemUtil.exists_file] using h
  rw [WifiCardHolder.construct_absent BASE_PATH card st hr]
  refine ⟨rfl, ?_, ?_, ?_⟩
  · simp [OHDFilesystemUtil.exists_file, Store.read_after_write, hn]
  · simp only [WifiCardHolder.read_last_settings, Store.read_after_write, hn, Option.map]
    rfl
  · intro name hne
    rw [Store.file_after_write_other _ _ _ _ _ (by
      intro n hn2
      rw [hn] at hn2
      injection hn2 with hn2
      rw [← hn2]
      exact hne)]
    cases st <;> rfl

/-- Witness of C3: card A on a host where the settings directory does not exist yet. -/
theorem C3_first_construction_defaults_witness :
    is_file_name (WifiCardHolder.get_uniqe_hash card_A) = true ∧
    OHDFilesystemUtil.exists_file none (WIFI_SETTINGS_DIRECTORY "/usr/local/share/openhd/")
      (WifiCardHolder.get_unique_filename "/usr/local/share/openhd/" card_A) = false ∧
    (WifiCardHolder.construct "/usr/local/share/openhd/" card_A none).1 =
      .ok { _wifi_card := card_A,
            _settings := { use_for := WifiUseFor.Unknown, frequency := "", txpower := "3100" } } ∧
    WifiCardHolder.read_last_settings "/usr/local/share/openhd/" card_A
      (WifiCardHolder.construct "/usr/local/share/openhd/" card_A none).2 =
      .ok (some { use_for := WifiUseFor.Unknown, frequency := "", txpower := "3100" }) :=
  ⟨rfl, rfl, (C3_first_construction_defaults "/usr/local/share/openhd/" card_A none rfl rfl).1,
    (C3_first_construction_defaults "/usr/local/share/openhd/" card_A none rfl rfl).2.2.1⟩

/-- C4: the settings path of a card is the settings directory followed by the type string,
an underscore and the MAC; two cards with the same type and the same MAC have the same
path, whatever their other fields, and constructing a holder for the first card and then,
on the store that leaves, for the second gives the same outcome for both: the same
settings, or the same failure. -/
theorem C4_identity_by_type_and_mac (BASE_PATH : String) (c1 c2 : WiFiCard) (st : Store)
    (htype : c1.type = c2.type) (hmac : c1.mac = c2.mac) :
    WifiCardHolder.get_unique_filename BASE_PATH c1 =
      WIFI_SETTINGS_DIRECTORY BASE_PATH ++ wifi_card_type_to_string c1.type ++ "_" ++ c1.mac ∧
    WifiCardHolder.get_unique_filename BASE_PATH c1 =
      WifiCardHolder.get_unique_filename BASE_PATH c2 ∧
    (WifiCardHolder.construct BASE_PATH c1 st).1.map WifiCardHolder.get_settings =
      (WifiCardHolder.construct BASE_PATH c2
        (WifiCardHolder.construct BASE_PATH c1 st).2).1.map WifiCardHolder.get_settings := by
  have hp : WifiCardHolder.get_unique_filename BASE_PATH c2 =
      WifiCardHolder.get_unique_filename BASE_PATH c1 := by
    simp [WifiCardHolder.get_unique_filename, WifiCardHolder.get_uniqe_hash, htype, hmac]
  refine ⟨?_, hp.symm, ?_⟩
  · simp [WifiCardHolder.get_unique_filename, WifiCardHolder.get_uniqe_hash,
      String.append_assoc]
  · cases hr : st.read (WIFI_SETTINGS_DIRECTORY BASE_PATH)
        (WifiCardHolder.get_unique_filename BASE_PATH c1) with
    | none =>
      rw [WifiCardHolder.construct_absent BASE_PATH c1 st hr]
      simp only []
      rw [WifiCardHolder.construct_after_default BASE_PATH c1 c2 _ hp]
      rfl
    | some f =>
      rw [WifiCardHolder.construct_present BASE_PATH c1 st f hr]
      simp only []
      rw [WifiCardHolder.construct_present BASE_PATH c2 st f (by rw [hp]; exact hr)]
      cases Json.parse f >>= WifiCardSettings.from_json <;> rfl

/-- Witness of C4: card A seen as `wlan0` and then, with another driver name, other
capability flags and other settings of its own, as `wlan3`, on a store holding its
settings file. -/
theorem C4_identity_by_type_and_mac_witness :
    (WifiCardHolder.construct "/usr/local/share/openhd/"
        { card_A with interface_name := "wlan0" }
        (some [("ath9k_AA:BB:CC:00:11:22",
          (WifiCardSettings.to_json
            { use_for := WifiUseFor.Hotspot, frequency := "2412", txpower := "2000" }).dump)])
      ).1.map WifiCardHolder.get_settings =
    (WifiCardHolder.construct "/usr/local/share/openhd/"
        { card_A with interface_name := "wlan3", driver_name := "ath9k", supports_rts := true,
                      settings := { frequency := "5180" } }
        (WifiCardHolder.construct "/usr/local/share/openhd/"
          { card_A with interface_name := "wlan0" }
          (some [("ath9k_AA:BB:CC:00:11:22",
            (WifiCardSettings.to_json
              { use_for := WifiUseFor.Hotspot, frequency := "2412", txpower := "2000" }).dump)])
        ).2).1.map WifiCardHolder.get_settings :=
  (C4_identity_by_type_and_mac "/usr/local/share/openhd/"
    { card_A with interface_name := "wlan0" }
    { card_A with interface_name := "wlan3", driver_name := "ath9k", supports_rts := true,
                  settings := { frequency := "5180" } } _ rfl rfl).2.2

/-- C5, failing on the code: `Realtek8814au` has no case in the `switch` of
`wifi_card_type_to_string` and gets the fallback "unknown", the string of `Unknown`. -/
theorem C5_Realtek8814au_is_unmapped :
    wifi_card_type_to_string WiFiCardType.Realtek8814au = "unknown" ∧
    wifi_card_type_to_string WiFiCardType.Realtek8814au =
      wifi_card_type_to_string WiFiCardType.Unknown ∧
    WiFiCardType.Realtek8814au ≠ WiFiCardType.Unknown := by
  refine ⟨rfl, rfl, ?_⟩
  decide

/-- C6, failing on the code: for the empty list of cards `wificards_to_json` returns the
null value, which is not an array. -/
theorem C6_empty_manifest_is_null :
    wificards_to_json [] = .ok Json.null ∧ wificards_to_json [] ≠ .ok (Json.arr []) := by
  refine ⟨rfl, ?_⟩
  rw [show wificards_to_json [] = .ok Json.null from rfl]
  intro h
  injection h with h
  cases h

/-- C7: when the settings file of a card exists and its content is not valid JSON, or is
valid JSON that is not a settings document, constructing the holder fails with an
exception and the store is exactly as before: no default settings are returned and the
file is not overwritten. -/
theorem C7_corrupt_file_fails (BASE_PATH : String) (card : WiFiCard) (st : Store)
    (f : FileContent)
    (hfile : st.read (WIFI_SETTINGS_DIRECTORY BASE_PATH)
      (WifiCardHolder.get_unique_filename BASE_PATH card) = some f)
    (hbad : Json.parse f = .error JsonError.parse_error ∨
      ∃ j, Json.parse f = .ok j ∧ is_settings_document j = false) :
    ∃ e, WifiCardHolder.construct BASE_PATH card st = (.error e, st) := by
  rw [WifiCardHolder.construct_present BASE_PATH card st f hfile]
  rcases hbad with hp | ⟨j, hp, hj⟩
  · exact ⟨JsonError.parse_error, by simp [hp, bind, Except.bind]⟩
  · obtain ⟨e, he⟩ := WifiCardSettings.from_json_error_of_not_document j hj
    exact ⟨e, by simp [hp, he, bind, Except.bind]⟩

/-- Witness of C7: the settings file of card A holds garbage bytes; the settings file of
card A holds a document whose txpower is a number instead of a string. -/
theorem C7_corrupt_file_fails_witness :
    (∃ e, WifiCardHolder.construct "/usr/local/share/openhd/" card_A
        (some [("ath9k_AA:BB:CC:00:11:22",
          FileContent.malformed "\x00\x13garbage")]) =
      (.error e,
        some [("ath9k_AA:BB:CC:00:11:22",
          FileContent.malformed "\x00\x13garbage")])) ∧
    (∃ e, WifiCardHolder.construct "/usr/local/share/openhd/" card_A
        (some [("ath9k_AA:BB:CC:00:11:22",
          FileContent.document (Json.obj [("use_for", Json.null),
            ("frequency", Json.str "5180"), ("txpower", Json.num 3100)]))]) =
      (.error e,
        some [("ath9k_AA:BB:CC:00:11:22",
          FileContent.document (Json.obj [("use_for", Json.null),
            ("frequency", Json.str "5180"), ("txpower", Json.num 3100)]))])) :=
  ⟨C7_corrupt_file_fails "/usr/local/share/openhd/" card_A _ _ rfl (Or.inl rfl),
    C7_corrupt_file_fails "/usr/local/share/openhd/" card_A _ _ rfl (Or.inr ⟨_, rfl, rfl⟩)⟩

/-- C8: when the settings file of a card is absent, or holds a settings document,
constructing the holder twice in succession succeeds both times with identical settings,
and the second construction leaves the store exactly as the first left it. -/
theorem C8_construct_idempotent (BASE_PATH : String) (card : WiFiCard) (st : Store)
    (h : st.read (WIFI_SETTINGS_DIRECTORY BASE_PATH)
        (WifiCardHolder.get_unique_filename BASE_PATH card) = none ∨
      ∃ f j, st.read (WIFI_SETTINGS_DIRECTORY BASE_PATH)
          (WifiCardHolder.get_unique_filename BASE_PATH card) = some f ∧
        Json.parse f = .ok j ∧ is_settings_document j = true) :
    ∃ s, (WifiCardHolder.construct BASE_PATH card st).1 =
        .ok { _wifi_card := card, _settings := s } ∧
      WifiCardHolder.construct BASE_PATH card (WifiCardHolder.construct BASE_PATH card st).2 =
        (.ok { _wifi_card := card, _settings := s },
          (WifiCardHolder.construct BASE_PATH card st).2) := by
  rcases h with hr | ⟨f, j, hr, hp, hj⟩
  · refine ⟨{}, ?_, ?_⟩
    · rw [WifiCardHolder.construct_absent BASE_PATH card st hr]
    · rw [WifiCardHolder.construct_absent BASE_PATH card st hr]
      exact WifiCardHolder.construct_after_default BASE_PATH card card _ rfl
  · obtain ⟨s, hs⟩ := WifiCardSettings.from_json_ok_of_document j hj
    have hc : WifiCardHolder.construct BASE_PATH card st =
        (.ok { _wifi_card := card, _settings := s }, st) := by
      rw [WifiCardHolder.construct_present BASE_PATH card st f hr]
      simp [hp, hs, bind, Except.bind]
    refine ⟨s, ?_, ?_⟩
    · rw [hc]
    · rw [hc]
      exact hc

/-- Witness of C8: card B on a host where the settings directory does not exist yet, and
card A on a store holding a settings document for it. -/
theorem C8_construct_idempotent_witness :
    (∃ s, (WifiCardHolder.construct "/usr/local/share/openhd/" card_B none).1 =
        .ok { _wifi_card := card_B, _settings := s } ∧
      WifiCardHolder.construct "/usr/local/share/openhd/" card_B
          (WifiCardHolder.construct "/usr/local/share/openhd/" card_B none).2 =
        (.ok { _wifi_card := card_B, _settings := s },
          (WifiCardHolder.construct "/usr/local/share/openhd/" card_B none).2)) ∧
    (∃ s, (WifiCardHolder.construct "/usr/local/share/openhd/" card_A
          (some [("ath9k_AA:BB:CC:00:11:22",
            FileContent.document (Json.obj [("use_for", Json.str "MonitorMode"),
              ("frequency", Json.str "5180"), ("txpower", Json.str "1500")]))])).1 =
        .ok { _wifi_card := card_A, _settings := s } ∧
      WifiCardHolder.construct "/usr/local/share/openhd/" card_A
          (WifiCardHolder.construct "/usr/local/share/openhd/" card_A
            (some [("ath9k_AA:BB:CC:00:11:22",
              FileContent.document (Json.obj [("use_for", Json.str "MonitorMode"),
                ("frequency", Json.str "5180"), ("txpower", Json.str "1500")]))])).2 =
        (.ok { _wifi_card := card_A, _settings := s },
          (WifiCardHolder.construct "/usr/local/share/openhd/" card_A
            (some [("ath9k_AA:BB:CC:00:11:22",
              FileContent.document (Json.obj [("use_for", Json.str "MonitorMode"),
                ("frequency", Json.str "5180"), ("txpower", Json.str "1500")]))])).2)) :=
  ⟨C8_construct_idempotent "/usr/local/share/openhd/" card_B none (Or.inl rfl),
    C8_construct_idempotent "/usr/local/share/openhd/" card_A _ (Or.inr ⟨_, _, rfl, rfl, rfl⟩)⟩

/-- C9 as stated fails: the document of the default settings has no field `use`, so its
fields are not exactly `use`, `frequency` and `txpower`. -/
theorem C9_no_field_named_use :
    ¬ has_exactly_fields (WifiCardSettings.to_json {}) ["use", "frequency", "txpower"] := by
  rintro ⟨kvs, hk, hall⟩
  have hkvs : kvs = [("use_for", Json.null), ("frequency", Json.str ""),
      ("txpower", Json.str "3100")] := by
    have h2 : WifiCardSettings.to_json {} = Json.obj [("use_for", Json.null),
      ("frequency", Json.str ""), ("txpower", Json.str "3100")] := rfl
    rw [h2] at hk
    injection hk with hk
    exact hk.symm
  have huse := (hall "use").2 (by simp)
  rw [hkvs] at huse
  simp [Json.find_member] at huse

/-- C9, amended: the document of any settings value is an object with exactly the fields
`use_for`, `frequency` and `txpower`; `use_for` is null for the `Unknown` use and
otherwise the tag string "MonitorMode" or "Hotspot"; `frequency` and `txpower` are the
strings of the settings; the default settings have txpower "3100" and empty frequency. -/
theorem C9_settings_document_shape (s : WifiCardSettings) :
    has_exactly_fields (WifiCardSettings.to_json s) ["use_for", "frequency", "txpower"] ∧
    (WifiCardSettings.to_json s).at_ "use_for" = .ok
      (match s.use_for with
        | WifiUseFor.Unknown => Json.null
        | WifiUseFor.MonitorMode => Json.str "MonitorMode"
        | WifiUseFor.Hotspot => Json.str "Hotspot") ∧
    (WifiCardSettings.to_json s).at_ "frequency" = .ok (Json.str s.frequency) ∧
    (WifiCardSettings.to_json s).at_ "txpower" = .ok (Json.str s.txpower) ∧
    ({} : WifiCardSettings).txpower = "3100" ∧ ({} : WifiCardSettings).frequency = "" := by
  obtain ⟨u, f, t⟩ := s
  have h2 : WifiCardSettings.to_json { use_for := u, frequency := f, txpower := t } =
      Json.obj [("use_for", WifiUseFor.to_json u), ("frequency", Json.str f),
        ("txpower", Json.str t)] := by
    simp [WifiCardSettings.to_json, Json.set_member]
  refine ⟨⟨_, h2, ?_⟩, ?_, ?_, ?_, rfl, rfl⟩
  · intro k
    simp only [Json.find_member, List.mem_cons, List.mem_singleton, List.not_mem_nil,
      or_false]
    by_cases h1 : "use_for" = k
    · simp [h1]
    · by_cases h3 : "frequency" = k
      · simp [h1, h3]
      · by_cases h4 : "txpower" = k
        · simp [h1, h3, h4]
        · simp [h1, h3, h4, Ne.symm h1, Ne.symm h3, Ne.symm h4, eq_comm]
  · cases u <;> rfl
  · rfl
  · rfl

/-- C10: for cards whose MAC strings contain no underscore, equal identity keys imply equal
MACs and equal type strings; without the restriction on the MAC this fails: type
`Atheros9k` with MAC "htc_X" and type `Atheros9khtc` with MAC "X" have the same key. -/
theorem C10_identity_key_unambiguous :
    (∀ c1 c2 : WiFiCard, '_' ∉ c1.mac.toList → '_' ∉ c2.mac.toList →
      WifiCardHolder.get_uniqe_hash c1 = WifiCardHolder.get_uniqe_hash c2 →
      c1.mac = c2.mac ∧
        wifi_card_type_to_string c1.type = wifi_card_type_to_string c2.type) ∧
    (WifiCardHolder.get_uniqe_hash { type := WiFiCardType.Atheros9k, mac := "htc_X" } =
      WifiCardHolder.get_uniqe_hash { type := WiFiCardType.Atheros9khtc, mac := "X" } ∧
      wifi_card_type_to_string WiFiCardType.Atheros9k ≠
        wifi_card_type_to_string WiFiCardType.Atheros9khtc ∧
      ("htc_X" : String) ≠ "X") := by
  refine ⟨?_, by decide, by decide, by decide⟩
  intro c1 c2 h1 h2 hk
  have hd := congrArg String.data hk
  rw [WifiCardHolder.get_uniqe_hash_data, WifiCardHolder.get_uniqe_hash_data] at hd
  obtain ⟨ha, hb⟩ := list_split_at_separator '_' _ _ _ _ h1 h2 hd
  exact ⟨String.ext hb, String.ext ha⟩

/-- Witness of C10: card A seen under two interface names. -/
theorem C10_identity_key_unambiguous_witness :
    ({ card_A with interface_name := "wlan0" } : WiFiCard).mac =
        ({ card_A with interface_name := "wlan1" } : WiFiCard).mac ∧
      wifi_card_type_to_string ({ card_A with interface_name := "wlan0" } : WiFiCard).type =
        wifi_card_type_to_string ({ card_A with interface_name := "wlan1" } : WiFiCard).type :=
  C10_identity_key_unambiguous.1 { card_A with interface_name := "wlan0" }
    { card_A with interface_name := "wlan1" } (by decide) (by decide) rfl

end OpenHD
